import Mathlib

/-!
Verification of the tinyTrainer core: entity model (`models.py`),
simulation tick and lifecycle transitions (`simulation.py`,
`simulations/simulation.py`, and the archived variant `archive/app.py`).

The Python `Node` dataclass becomes a Lean structure; the topology dict
(`Dict[str, Node]`, keyed by the nodes' own `name` fields, insertion
ordered) becomes a `List Node`.  In-place mutation of a looked-up node
becomes a map over the list guarded by a name test.  The random draws of
a tick (`random.sample`, `random.random`, `random.choice`) are made
explicit as an oracle record; `ValidOracle` states exactly the
constraints the Python random library guarantees for those draws.
Probability thresholds (`0.05`, `0.08`) are embedded as the rationals
they denote.
-/

namespace TinyTrainer

/-- The `Node` dataclass from `models.py`.  The `x`/`y` floats only ever
hold small integer literals in this program, so they are embedded as
integers. -/
structure Node where
  name : String
  kind : String
  role : String := "UNASSIGNED"
  state : String := "UNASSIGNED"
  bus : String := "CAN"
  node_id : Int := 0
  heartbeat : Bool := true
  bus_activity : Bool := false
  fault_code : String := ""
  notes : String := ""
  x : Int := 0
  y : Int := 0
deriving DecidableEq, Repr

/-- `ROLES` from `models.py`. -/
def ROLES : List String := ["UNASSIGNED", "DC motor", "vision", "6 DOF", "ELEVATION"]

/-- `STATES` from `models.py`. -/
def STATES : List String := ["UNASSIGNED", "CONFIGURED", "ACTIVE", "FAULT"]

/-- `init_nodes` from `models.py`: the fixed default topology, in dict
insertion order (each dict key equals the node's `name` field). -/
def init_nodes : List Node :=
  [ { name := "tinyCore", kind := "tinyCore", role := "ARBITRATOR", state := "ACTIVE",
      node_id := 1, x := 200, y := 250 },
    { name := "tinyMod_UI", kind := "tinyMod", role := "UI/CONFIG", state := "ACTIVE",
      node_id := 2, x := 400, y := 100 },
    { name := "tinyMod_A", kind := "tinyMod", role := "DC motor", state := "CONFIGURED",
      node_id := 3, x := 400, y := 200 },
    { name := "tinyMod_B", kind := "tinyMod", role := "vision", state := "CONFIGURED",
      node_id := 4, x := 400, y := 300 },
    { name := "tinyMod_C", kind := "tinyMod", role := "6 DOF", state := "CONFIGURED",
      node_id := 5, x := 400, y := 400 },
    { name := "tinyMod_D", kind := "tinyMod", role := "ELEVATION", state := "CONFIGURED",
      node_id := 6, x := 400, y := 500 },
    { name := "tinyHub", kind := "tinyHub", role := "IO EXPAND", state := "ACTIVE",
      node_id := 20, x := 600, y := 100 },
    { name := "tinySwitch", kind := "tinySwitch", role := "HMI INPUTS", state := "ACTIVE",
      node_id := 30, x := 800, y := 200 } ]

/-- `init_edges` from `models.py`: `(src, dst, label)` triples. -/
def init_edges : List (String × String × String) :=
  [ ("tinyCore", "tinyMod_UI", "bus"),
    ("tinyCore", "tinyMod_A", "bus"),
    ("tinyCore", "tinyMod_B", "bus"),
    ("tinyCore", "tinyMod_C", "bus"),
    ("tinyCore", "tinyMod_D", "bus"),
    ("tinyMod_UI", "tinyHub", "bus"),
    ("tinyHub", "tinySwitch", "IO"),
    ("tinyCore", "tinySwitch", "inputs") ]

/-- The UI reset action (`st.session_state.nodes = init_nodes()` in
`streamlit_app.py`): the topology after a reset. -/
def reset : List Node := init_nodes

/-- The names of the default topology's nodes, in order. -/
def node_names : List String := init_nodes.map Node.name

/-- Mutation of the node stored under `node_name` in the topology dict:
`nodes[node_name]` is the unique node whose `name` equals the key, so
updating it in place is a name-guarded map. -/
def updateNode (nodes : List Node) (node_name : String) (f : Node → Node) : List Node :=
  nodes.map fun n => if n.name = node_name then f n else n

/-- Effect of `set_role` (`simulation.py`) on the looked-up node:
`n.role = role`; role `"UNASSIGNED"` forces state `"UNASSIGNED"`,
otherwise state becomes `"CONFIGURED"` when it was `"UNASSIGNED"` and is
kept as is when it was anything else. -/
def setRoleNode (n : Node) (role : String) : Node :=
  let n1 := { n with role := role }
  if role = "UNASSIGNED" then { n1 with state := "UNASSIGNED" }
  else { n1 with state := if n1.state = "UNASSIGNED" then "CONFIGURED" else n1.state }

/-- `set_role(nodes, node_name, role)` from `simulation.py`. -/
def set_role (nodes : List Node) (node_name : String) (role : String) : List Node :=
  updateNode nodes node_name (fun n => setRoleNode n role)

/-- Effect of `activate_node` (`simulation.py`) on the looked-up node. -/
def activateNode (n : Node) : Node :=
  if n.state ≠ "FAULT" ∧ n.role ≠ "UNASSIGNED" then { n with state := "ACTIVE" } else n

/-- `activate_node(nodes, node_name)` from `simulation.py`. -/
def activate_node (nodes : List Node) (node_name : String) : List Node :=
  updateNode nodes node_name activateNode

/-- Effect of `clear_fault` (`simulation.py`) on the looked-up node. -/
def clearFaultNode (n : Node) : Node :=
  if n.state ≠ "FAULT" then n
  else { n with fault_code := "",
                state := if n.role ≠ "UNASSIGNED" then "CONFIGURED" else "UNASSIGNED" }

/-- `clear_fault(nodes, node_name)` from `simulation.py`. -/
def clear_fault (nodes : List Node) (node_name : String) : List Node :=
  updateNode nodes node_name clearFaultNode

/-- The kinds eligible for bus-activity simulation
(`("tinyMod", "tinyHub", "tinyCore")` in `tick_sim`). -/
def eligible_kinds : List String := ["tinyMod", "tinyHub", "tinyCore"]

/-- `mods` in `tick_sim`: the eligible nodes. -/
def mods (nodes : List Node) : List Node :=
  nodes.filter fun n => n.kind ∈ eligible_kinds

/-- The fault-injection candidates in `tick_sim`: nodes of kind `"tinyMod"`. -/
def tinyMods (nodes : List Node) : List Node :=
  nodes.filter fun n => n.kind = "tinyMod"

/-- The fixed fault-code pool of `tick_sim`. -/
def FAULT_CODES : List String := ["E01_WATCHDOG", "E12_BUS_TIMEOUT", "E33_OVERCURRENT_SIM"]

/-- The fault-injection threshold `0.05` of `random.random() < 0.05`. -/
def p_fault : ℚ := mkRat 5 100

/-- The auto-recovery threshold `0.08` of the archived variant. -/
def p_recover : ℚ := mkRat 8 100

/-- `k = max(1, min(len(mods), activity_level))` in `tick_sim`. -/
def k_clamp (nodes : List Node) (activity_level : Int) : Int :=
  max 1 (min ((mods nodes).length : Int) activity_level)

/-- The random draws of one `tick_sim` call, made explicit:
`sample` is the list of node names returned by `random.sample(mods, k)`,
`faultRand` the value of `random.random()`, and `victim` / `faultCode`
the results of the two `random.choice` calls (only consulted when
`faultRand < p_fault`). -/
structure TickOracle where
  sample : List String
  faultRand : ℚ
  victim : String
  faultCode : String
deriving DecidableEq, Repr

/-- What the Python random library guarantees about the draws of one
tick: `random.sample(mods, k)` yields `k` distinct eligible node names,
`random.random()` lies in `[0, 1)`, and, when the fault branch is taken,
`random.choice` picks an existing `tinyMod` node and a code from the
pool. -/
def ValidOracle (nodes : List Node) (activity_level : Int) (o : TickOracle) : Prop :=
  o.sample.Nodup ∧
  (∀ s ∈ o.sample, s ∈ (mods nodes).map Node.name) ∧
  (o.sample.length : Int) = k_clamp nodes activity_level ∧
  0 ≤ o.faultRand ∧ o.faultRand < 1 ∧
  (o.faultRand < p_fault → o.victim ∈ (tinyMods nodes).map Node.name ∧
    o.faultCode ∈ FAULT_CODES)

instance (nodes : List Node) (L : Int) (o : TickOracle) :
    Decidable (ValidOracle nodes L o) := by
  unfold ValidOracle; infer_instance

/-- First pass of `tick_sim`: `n.bus_activity = False`. -/
def clearBus (n : Node) : Node := { n with bus_activity := false }

/-- Second pass of `tick_sim`: the sampled nodes get `bus_activity = True`. -/
def markBus (sample : List String) (n : Node) : Node :=
  if n.name ∈ sample then { n with bus_activity := true } else n

/-- Fault-injection pass of `tick_sim`: the chosen victim gets
`state = "FAULT"` and the chosen fault code. -/
def injectFault (victim code : String) (n : Node) : Node :=
  if n.name = victim then { n with state := "FAULT", fault_code := code } else n

/-- `tick_sim(nodes, activity_level)` from `simulation.py` (identical in
`simulations/simulation.py`), with the random draws supplied by `o`:
clear all bus activity, mark the sampled nodes, then with probability
`p_fault` fault one `tinyMod` victim.  `activity_level` constrains the
sample only through `ValidOracle` (the code passes
`k_clamp nodes activity_level` to `random.sample`). -/
def tick_sim (nodes : List Node) (activity_level : Int) (o : TickOracle) : List Node :=
  let ns1 := nodes.map clearBus
  let ns2 := ns1.map (markBus o.sample)
  if o.faultRand < p_fault then ns2.map (injectFault o.victim o.faultCode) else ns2

/-- The random draws of one archived `tick_sim` call
(`archive/app.py`), which adds a second independent trial
`recoverRand` for the auto-recovery branch. -/
structure ArchiveOracle where
  sample : List String
  faultRand : ℚ
  victim : String
  faultCode : String
  recoverRand : ℚ
deriving DecidableEq, Repr

/-- Auto-recovery pass of the archived `tick_sim`: every `FAULT` node
goes directly to `ACTIVE` with its fault code cleared. -/
def recoverNode (n : Node) : Node :=
  if n.state = "FAULT" then { n with state := "ACTIVE", fault_code := "" } else n

/-- `tick_sim` from `archive/app.py`: as `tick_sim`, then with
probability `p_recover` every `FAULT` node is recovered to `ACTIVE`. -/
def tick_sim_archive (nodes : List Node) (activity_level : Int) (o : ArchiveOracle) :
    List Node :=
  let ns1 := nodes.map clearBus
  let ns2 := ns1.map (markBus o.sample)
  let ns3 := if o.faultRand < p_fault then ns2.map (injectFault o.victim o.faultCode) else ns2
  if o.recoverRand < p_recover then ns3.map recoverNode else ns3

/-- One user-triggerable core operation, as invoked by the UI layer. -/
inductive CoreOp where
  | tick (activity_level : Int) (o : TickOracle)
  | assignRole (node_name : String) (role : String)
  | activate (node_name : String)
  | ackFault (node_name : String)
deriving DecidableEq, Repr

/-- Dispatch of a core operation to the corresponding function of
`simulation.py`. -/
def applyOp (nodes : List Node) : CoreOp → List Node
  | .tick L o => tick_sim nodes L o
  | .assignRole nm r => set_role nodes nm r
  | .activate nm => activate_node nodes nm
  | .ackFault nm => clear_fault nodes nm

/-- A session: a sequence of core operations applied in order. -/
def applyOps (nodes : List Node) : List CoreOp → List Node
  | [] => nodes
  | op :: ops => applyOps (applyOp nodes op) ops

/-- `ValidOracle`, lifted to an operation (only ticks carry draws). -/
def ValidOp (nodes : List Node) : CoreOp → Prop
  | .tick L o => ValidOracle nodes L o
  | _ => True

instance (nodes : List Node) (op : CoreOp) : Decidable (ValidOp nodes op) := by
  unfold ValidOp; cases op <;> infer_instance

/-- The intended node invariant: `fault_code` is non-empty exactly in
state `FAULT`. -/
def faultInv (n : Node) : Prop := n.fault_code ≠ "" ↔ n.state = "FAULT"

instance (n : Node) : Decidable (faultInv n) := by
  unfold faultInv; infer_instance

/-- The per-node effect of one `tick_sim` call: all three passes act
pointwise, so the tick is a single map of this function. -/
def tickNode (o : TickOracle) (n : Node) : Node :=
  let n1 := markBus o.sample (clearBus n)
  if o.faultRand < p_fault then injectFault o.victim o.faultCode n1 else n1

/-- The per-node effect of one archived `tick_sim` call. -/
def tickNodeArchive (o : ArchiveOracle) (n : Node) : Node :=
  let n1 := markBus o.sample (clearBus n)
  let n2 := if o.faultRand < p_fault then injectFault o.victim o.faultCode n1 else n1
  if o.recoverRand < p_recover then recoverNode n2 else n2

/-- The fields the core never writes (the spec's frame: everything but
`role`, `state`, `bus_activity`, `fault_code`). -/
def frameAgrees (a b : Node) : Prop :=
  b.name = a.name ∧ b.kind = a.kind ∧ b.bus = a.bus ∧ b.node_id = a.node_id ∧
  b.heartbeat = a.heartbeat ∧ b.notes = a.notes ∧ b.x = a.x ∧ b.y = a.y

/-- The side condition under which the one offending operation is ruled
out: an `assignRole` with role `"UNASSIGNED"` must not target a node
currently in FAULT. -/
def SafeFor (nodes : List Node) : CoreOp → Prop
  | .assignRole nm r => r = "UNASSIGNED" → ∀ n ∈ nodes, n.name = nm → n.state ≠ "FAULT"
  | _ => True

instance (nodes : List Node) (op : CoreOp) : Decidable (SafeFor nodes op) := by
  cases op <;> (unfold SafeFor; infer_instance)

/-- A role string outside the enumerated `ROLES` set. -/
def bogusRole : String := "NOT_A_ROLE"

/-- A faulted module, satisfying the fault-code invariant. -/
def faultyNode : Node :=
  { name := "tinyMod_A", kind := "tinyMod", role := "DC motor",
    state := "FAULT", fault_code := "E01_WATCHDOG" }

/-- A hub node already in FAULT before the tick. -/
def faultHub : Node :=
  { name := "tinyHub", kind := "tinyHub", role := "IO EXPAND",
    state := "FAULT", fault_code := "E01_WATCHDOG" }

/-- A healthy module, so fault injection has a candidate. -/
def plainMod : Node :=
  { name := "tinyMod_A", kind := "tinyMod", role := "DC motor", state := "CONFIGURED" }

/-- A two-node topology with a pre-existing FAULT. -/
def nodesPreFault : List Node := [faultHub, plainMod]

/-- A recovery-firing draw for the archived tick. -/
def recOracle : ArchiveOracle :=
  { sample := [], faultRand := mkRat 1 2, victim := "", faultCode := "", recoverRand := 0 }

/-- A draw that re-faults the already faulted module, re-rolling its
fault code. -/
def reFaultOracle : TickOracle :=
  { sample := ["tinyMod_A"], faultRand := 0, victim := "tinyMod_A",
    faultCode := "E12_BUS_TIMEOUT" }

/-- A valid non-faulting draw for a tick of the default topology at
activity level 3. -/
def sampleOracle : TickOracle :=
  { sample := ["tinyCore", "tinyMod_UI", "tinyMod_A"], faultRand := mkRat 1 2,
    victim := "", faultCode := "" }

/-- A valid fault-firing draw for a tick of the default topology. -/
def injectOracle : TickOracle :=
  { sample := ["tinyCore"], faultRand := 0, victim := "tinyMod_B",
    faultCode := "E01_WATCHDOG" }

lemma tick_sim_eq_map (nodes : List Node) (L : Int) (o : TickOracle) :
    tick_sim nodes L o = nodes.map (tickNode o) := by
  unfold tick_sim tickNode
  by_cases h : o.faultRand < p_fault <;> simp [h, List.map_map, Function.comp]

lemma clearBus_name (n : Node) : (clearBus n).name = n.name := rfl

lemma clearBus_kind (n : Node) : (clearBus n).kind = n.kind := rfl

lemma clearBus_state (n : Node) : (clearBus n).state = n.state := rfl

lemma clearBus_fault_code (n : Node) : (clearBus n).fault_code = n.fault_code := rfl

lemma clearBus_bus_activity (n : Node) : (clearBus n).bus_activity = false := rfl

lemma markBus_name (s : List String) (n : Node) : (markBus s n).name = n.name := by
  unfold markBus; split_ifs <;> rfl

lemma markBus_kind (s : List String) (n : Node) : (markBus s n).kind = n.kind := by
  unfold markBus; split_ifs <;> rfl

lemma markBus_state (s : List String) (n : Node) : (markBus s n).state = n.state := by
  unfold markBus; split_ifs <;> rfl

lemma markBus_fault_code (s : List String) (n : Node) :
    (markBus s n).fault_code = n.fault_code := by
  unfold markBus; split_ifs <;> rfl

lemma markBus_bus_activity (s : List String) (n : Node) :
    (markBus s n).bus_activity = if n.name ∈ s then true else n.bus_activity := by
  unfold markBus; split_ifs <;> rfl

lemma injectFault_name (v c : String) (n : Node) : (injectFault v c n).name = n.name := by
  unfold injectFault; split_ifs with h <;> simp [h]

lemma injectFault_kind (v c : String) (n : Node) : (injectFault v c n).kind = n.kind := by
  unfold injectFault; split_ifs <;> rfl

lemma injectFault_bus_activity (v c : String) (n : Node) :
    (injectFault v c n).bus_activity = n.bus_activity := by
  unfold injectFault; split_ifs <;> rfl

lemma injectFault_state (v c : String) (n : Node) :
    (injectFault v c n).state = if n.name = v then "FAULT" else n.state := by
  unfold injectFault; split_ifs <;> rfl

lemma injectFault_fault_code (v c : String) (n : Node) :
    (injectFault v c n).fault_code = if n.name = v then c else n.fault_code := by
  unfold injectFault; split_ifs <;> rfl

lemma tickNode_name (o : TickOracle) (n : Node) : (tickNode o n).name = n.name := by
  simp only [tickNode]
  split_ifs <;> simp [injectFault_name, markBus_name, clearBus_name]

lemma tickNode_kind (o : TickOracle) (n : Node) : (tickNode o n).kind = n.kind := by
  simp only [tickNode]
  split_ifs <;> simp [injectFault_kind, markBus_kind, clearBus_kind]

lemma tickNode_bus_activity (o : TickOracle) (n : Node) :
    (tickNode o n).bus_activity = decide (n.name ∈ o.sample) := by
  simp only [tickNode]
  split_ifs <;>
    simp [injectFault_bus_activity, markBus_bus_activity, clearBus_bus_activity,
      markBus_name, clearBus_name]

lemma tickNode_state (o : TickOracle) (n : Node) :
    (tickNode o n).state =
      if o.faultRand < p_fault ∧ n.name = o.victim then "FAULT" else n.state := by
  simp only [tickNode]
  split_ifs with hf h <;>
    simp_all [injectFault_state, markBus_state, clearBus_state, markBus_name, clearBus_name]

lemma tickNode_fault_code (o : TickOracle) (n : Node) :
    (tickNode o n).fault_code =
      if o.faultRand < p_fault ∧ n.name = o.victim then o.faultCode else n.fault_code := by
  simp only [tickNode]
  split_ifs with hf h <;>
    simp_all [injectFault_fault_code, markBus_fault_code, clearBus_fault_code,
      markBus_name, clearBus_name]

lemma frameAgrees_refl (n : Node) : frameAgrees n n := by
  unfold frameAgrees; exact ⟨rfl, rfl, rfl, rfl, rfl, rfl, rfl, rfl⟩

lemma frameAgrees_trans {a b c : Node} (h1 : frameAgrees a b) (h2 : frameAgrees b c) :
    frameAgrees a c := by
  unfold frameAgrees at *
  obtain ⟨e1, e2, e3, e4, e5, e6, e7, e8⟩ := h1
  obtain ⟨f1, f2, f3, f4, f5, f6, f7, f8⟩ := h2
  exact ⟨f1.trans e1, f2.trans e2, f3.trans e3, f4.trans e4,
    f5.trans e5, f6.trans e6, f7.trans e7, f8.trans e8⟩

lemma frameAgrees_clearBus (n : Node) : frameAgrees n (clearBus n) := by
  unfold frameAgrees clearBus; simp

lemma frameAgrees_markBus (s : List String) (n : Node) : frameAgrees n (markBus s n) := by
  unfold frameAgrees markBus; split_ifs <;> simp

lemma frameAgrees_injectFault (v c : String) (n : Node) :
    frameAgrees n (injectFault v c n) := by
  unfold frameAgrees injectFault; split_ifs with h <;> simp [h]

lemma frameAgrees_tickNode (o : TickOracle) (n : Node) : frameAgrees n (tickNode o n) := by
  simp only [tickNode]
  split_ifs
  · exact frameAgrees_trans (frameAgrees_trans (frameAgrees_clearBus n)
      (frameAgrees_markBus o.sample (clearBus n)))
      (frameAgrees_injectFault o.victim o.faultCode (markBus o.sample (clearBus n)))
  · exact frameAgrees_trans (frameAgrees_clearBus n) (frameAgrees_markBus o.sample (clearBus n))

lemma frameAgrees_setRoleNode (n : Node) (r : String) : frameAgrees n (setRoleNode n r) := by
  unfold frameAgrees setRoleNode
  split_ifs <;> simp_all

lemma frameAgrees_activateNode (n : Node) : frameAgrees n (activateNode n) := by
  unfold frameAgrees activateNode
  split_ifs <;> simp_all

lemma frameAgrees_clearFaultNode (n : Node) : frameAgrees n (clearFaultNode n) := by
  unfold frameAgrees clearFaultNode
  split_ifs <;> simp_all

lemma frameAgrees_updateNode (nodes : List Node) (nm : String) (f : Node → Node)
    (hf : ∀ n, frameAgrees n (f n)) :
    List.Forall₂ frameAgrees nodes (updateNode nodes nm f) := by
  unfold updateNode
  rw [List.forall₂_map_right_iff]
  rw [List.forall₂_same]
  intro n _
  by_cases h : n.name = nm <;> simp [h, hf, frameAgrees_refl]

lemma frameAgrees_applyOp (nodes : List Node) (op : CoreOp) :
    List.Forall₂ frameAgrees nodes (applyOp nodes op) := by
  cases op with
  | tick L o =>
      show List.Forall₂ frameAgrees nodes (tick_sim nodes L o)
      rw [tick_sim_eq_map, List.forall₂_map_right_iff, List.forall₂_same]
      intro n _
      exact frameAgrees_tickNode o n
  | assignRole nm r =>
      exact frameAgrees_updateNode nodes nm _ (fun n => frameAgrees_setRoleNode n r)
  | activate nm =>
      exact frameAgrees_updateNode nodes nm _ frameAgrees_activateNode
  | ackFault nm =>
      exact frameAgrees_updateNode nodes nm _ frameAgrees_clearFaultNode

lemma countP_mem_of_nodup (names sample : List String)
    (h1 : names.Nodup) (h2 : sample.Nodup) (h3 : ∀ s ∈ sample, s ∈ names) :
    (names.countP fun a => decide (a ∈ sample)) = sample.length := by
  rw [List.countP_eq_length_filter]
  have hperm : List.Perm (names.filter fun a => decide (a ∈ sample)) sample := by
    rw [List.perm_ext_iff_of_nodup (h1.filter _) h2]
    intro a
    simp only [List.mem_filter, decide_eq_true_eq]
    constructor
    · rintro ⟨-, ha⟩; exact ha
    · intro ha; exact ⟨h3 a ha, ha⟩
  exact hperm.length_eq

lemma name_mem_sample_of_bus {nodes : List Node} {o : TickOracle} {m : Node} {L : Int}
    (hm : m ∈ tick_sim nodes L o) (hb : m.bus_activity = true) :
    ∃ n ∈ nodes, m = tickNode o n ∧ n.name ∈ o.sample := by
  rw [tick_sim_eq_map] at hm
  obtain ⟨n, hn, rfl⟩ := List.mem_map.mp hm
  rw [tickNode_bus_activity] at hb
  exact ⟨n, hn, rfl, of_decide_eq_true hb⟩

/-- C1: after `tick(topology, L)` on a topology with at least one
eligible node, exactly `max(1, min(count(eligible), L))` nodes have
`bus_activity`, all of them of eligible kind, and every node not in the
sampled set ends with `bus_activity = false` whatever it was before. -/
theorem C1_tick_bus_activity (nodes : List Node) (L : Int) (o : TickOracle)
    (hnn : (nodes.map Node.name).Nodup)
    (hne : mods nodes ≠ [])
    (hv : ValidOracle nodes L o) :
    (((tick_sim nodes L o).countP fun n => n.bus_activity) : Int)
        = max 1 (min ((mods nodes).length : Int) L)
    ∧ (∀ m ∈ tick_sim nodes L o, m.bus_activity = true → m.kind ∈ eligible_kinds)
    ∧ (∀ m ∈ tick_sim nodes L o, m.name ∉ o.sample → m.bus_activity = false) := by
  obtain ⟨hs_nd, hs_sub, hs_len, -, -, -⟩ := hv
  refine ⟨?_, ?_, ?_⟩
  · rw [tick_sim_eq_map]
    have h1 : ((nodes.map (tickNode o)).countP fun n => n.bus_activity)
        = nodes.countP fun n => decide (n.name ∈ o.sample) := by
      rw [List.countP_map]
      apply List.countP_congr
      intro a _
      simp [Function.comp, tickNode_bus_activity]
    have h2 : (nodes.countP fun n => decide (n.name ∈ o.sample))
        = (nodes.map Node.name).countP fun a => decide (a ∈ o.sample) := by
      rw [List.countP_map]; rfl
    have h3 : ∀ s ∈ o.sample, s ∈ nodes.map Node.name := by
      intro s hs
      exact List.map_subset Node.name (fun a ha => List.mem_of_mem_filter ha) (hs_sub s hs)
    rw [h1, h2, countP_mem_of_nodup _ _ hnn hs_nd h3]
    rw [hs_len]
    rfl
  · intro m hm hb
    obtain ⟨n, hn, rfl, hmem⟩ := name_mem_sample_of_bus hm hb
    obtain ⟨p, hp, hpn⟩ := List.mem_map.mp (hs_sub _ hmem)
    have hpnodes : p ∈ nodes := List.mem_of_mem_filter hp
    have hpe : p = n := List.inj_on_of_nodup_map hnn hpnodes hn hpn
    have hk : decide (p.kind ∈ eligible_kinds) = true := (List.mem_filter.mp hp).2
    rw [tickNode_kind, ← hpe]
    exact of_decide_eq_true hk
  · intro m hm hns
    rw [tick_sim_eq_map] at hm
    obtain ⟨n, hn, rfl⟩ := List.mem_map.mp hm
    rw [tickNode_name] at hns
    rw [tickNode_bus_activity]
    simpa using hns

/-- C4: `assign_role` sets the role unconditionally; role `"UNASSIGNED"`
hard-resets the state to `UNASSIGNED`; any other role advances an
`UNASSIGNED` state to `CONFIGURED` and leaves every other state
(CONFIGURED, ACTIVE, FAULT) unchanged. -/
theorem C4_assign_role (n : Node) (R : String) :
    (setRoleNode n R).role = R
    ∧ (R = "UNASSIGNED" → (setRoleNode n R).state = "UNASSIGNED")
    ∧ (R ≠ "UNASSIGNED" → n.state = "UNASSIGNED" → (setRoleNode n R).state = "CONFIGURED")
    ∧ (R ≠ "UNASSIGNED" → n.state ≠ "UNASSIGNED" → (setRoleNode n R).state = n.state) := by
  unfold setRoleNode
  split_ifs with h <;> constructor <;> simp_all

/-- C5: `clear_fault` is a no-op (all fields untouched) off the FAULT
state; on a FAULT node it clears the fault code and falls back to
CONFIGURED, or to UNASSIGNED when the role is unassigned; it is a total
function with no other outcome. -/
theorem C5_clear_fault (n : Node) :
    (n.state ≠ "FAULT" → clearFaultNode n = n)
    ∧ (n.state = "FAULT" → n.role ≠ "UNASSIGNED" →
        clearFaultNode n = { n with fault_code := "", state := "CONFIGURED" })
    ∧ (n.state = "FAULT" → n.role = "UNASSIGNED" →
        clearFaultNode n = { n with fault_code := "", state := "UNASSIGNED" }) := by
  unfold clearFaultNode
  split_ifs <;> simp_all

/-- C6: `activate` sets state ACTIVE exactly when the node is not in
FAULT and its role is assigned; otherwise it changes nothing. -/
theorem C6_activate (n : Node) :
    (n.state ≠ "FAULT" → n.role ≠ "UNASSIGNED" →
        activateNode n = { n with state := "ACTIVE" })
    ∧ (n.state = "FAULT" ∨ n.role = "UNASSIGNED" → activateNode n = n) := by
  unfold activateNode
  split_ifs <;> simp_all

/-- C10: `set_role` validates nothing: any string becomes the node's
role verbatim, and every string other than the literal `"UNASSIGNED"` is
treated as an assigned role (advancing an UNASSIGNED node to
CONFIGURED); only the exact `"UNASSIGNED"` string triggers the hard
reset. -/
theorem C10_set_role_no_validation (n : Node) (R : String) :
    ((setRoleNode n R).role = R
      ∧ (R ≠ "UNASSIGNED" → (setRoleNode n R).state
            = (if n.state = "UNASSIGNED" then "CONFIGURED" else n.state))
      ∧ (R = "UNASSIGNED" → (setRoleNode n R).state = "UNASSIGNED"))
    ∧ (bogusRole ∉ ROLES
      ∧ (setRoleNode { name := "x", kind := "tinyMod" } bogusRole).state = "CONFIGURED"
      ∧ (setRoleNode { name := "x", kind := "tinyMod" } bogusRole).role = bogusRole) := by
  constructor
  · unfold setRoleNode
    split_ifs <;> simp_all
  · refine ⟨by decide, by decide, by decide⟩

/-- C2 counterexample: `set_role` with role `"UNASSIGNED"` on a FAULT
node resets the state to UNASSIGNED but keeps the non-empty fault code,
so the invariant is not preserved by every core operation. -/
theorem C2_counterexample :
    faultInv faultyNode ∧ ¬ faultInv (setRoleNode faultyNode "UNASSIGNED") := by
  decide

lemma faultInv_setRoleNode {n : Node} (r : String) (hi : faultInv n)
    (hs : r = "UNASSIGNED" → n.state ≠ "FAULT") : faultInv (setRoleNode n r) := by
  unfold faultInv setRoleNode at *
  by_cases hr : r = "UNASSIGNED"
  · have hst := hs hr
    have hfc : n.fault_code = "" := not_not.mp (mt hi.mp hst)
    simp [hr, hfc]
  · by_cases hu : n.state = "UNASSIGNED"
    · have hst : n.state ≠ "FAULT" := by rw [hu]; decide
      have hfc : n.fault_code = "" := not_not.mp (mt hi.mp hst)
      simp [hr, hu, hfc]
    · simpa [hr, hu] using hi

lemma faultInv_activateNode {n : Node} (hi : faultInv n) : faultInv (activateNode n) := by
  unfold faultInv activateNode at *
  split_ifs with h
  · have hfc : n.fault_code = "" := not_not.mp (mt hi.mp h.1)
    simp [hfc]
  · exact hi

lemma faultInv_clearFaultNode {n : Node} (hi : faultInv n) : faultInv (clearFaultNode n) := by
  unfold faultInv clearFaultNode at *
  split_ifs with h1 h2 <;> simp_all

lemma faultInv_tickNode {nodes : List Node} {L : Int} {o : TickOracle}
    (hv : ValidOracle nodes L o) {n : Node} (hi : faultInv n) : faultInv (tickNode o n) := by
  unfold faultInv
  rw [tickNode_state, tickNode_fault_code]
  by_cases hc : o.faultRand < p_fault ∧ n.name = o.victim
  · have hfc : o.faultCode ∈ FAULT_CODES := (hv.2.2.2.2.2 hc.1).2
    have hne : o.faultCode ≠ "" := by
      intro he
      rw [he] at hfc
      exact absurd hfc (by decide)
    simp [hc, hne]
  · simpa [hc] using hi

/-- C2 (amended): the invariant `fault_code ≠ "" ↔ state = FAULT` is
preserved by `tick`, `activate`, `clear_fault`, and by `assign_role`
with any assigned role — but an `assign_role` with role `"UNASSIGNED"`
targeting a FAULT node breaks it (see the counterexample), so that one
case must be excluded. -/
theorem C2_amended_fault_invariant (nodes : List Node) (op : CoreOp)
    (hv : ValidOp nodes op) (hsafe : SafeFor nodes op)
    (hinv : ∀ n ∈ nodes, faultInv n) :
    ∀ m ∈ applyOp nodes op, faultInv m := by
  cases op with
  | tick L o =>
      intro m hm
      have hvo : ValidOracle nodes L o := hv
      have hm2 : m ∈ tick_sim nodes L o := hm
      rw [tick_sim_eq_map] at hm2
      obtain ⟨n, hn, rfl⟩ := List.mem_map.mp hm2
      exact faultInv_tickNode hvo (hinv n hn)
  | assignRole nm r =>
      intro m hm
      have hs : r = "UNASSIGNED" → ∀ n ∈ nodes, n.name = nm → n.state ≠ "FAULT" := hsafe
      have hm2 : m ∈ updateNode nodes nm fun n => setRoleNode n r := hm
      obtain ⟨n, hn, rfl⟩ := List.mem_map.mp hm2
      by_cases h : n.name = nm
      · simpa [h] using faultInv_setRoleNode r (hinv n hn) (fun hr => hs hr n hn h)
      · simpa [h] using hinv n hn
  | activate nm =>
      intro m hm
      have hm2 : m ∈ updateNode nodes nm activateNode := hm
      obtain ⟨n, hn, rfl⟩ := List.mem_map.mp hm2
      by_cases h : n.name = nm
      · simpa [h] using faultInv_activateNode (hinv n hn)
      · simpa [h] using hinv n hn
  | ackFault nm =>
      intro m hm
      have hm2 : m ∈ updateNode nodes nm clearFaultNode := hm
      obtain ⟨n, hn, rfl⟩ := List.mem_map.mp hm2
      by_cases h : n.name = nm
      · simpa [h] using faultInv_clearFaultNode (hinv n hn)
      · simpa [h] using hinv n hn

/-- C3 counterexample: in the current `tick_sim` (`simulation.py`) there
is no random outcome whatsoever after which the pre-faulted node has
left FAULT — the 0.08 auto-recovery trial does not exist in this
implementation. -/
theorem C3_counterexample :
    ¬ ∃ o : TickOracle, ValidOracle nodesPreFault 1 o ∧
        ∀ m ∈ tick_sim nodesPreFault 1 o, ¬ (m.name = "tinyHub" ∧ m.state = "FAULT") := by
  rintro ⟨o, -, hall⟩
  have hmem : tickNode o faultHub ∈ tick_sim nodesPreFault 1 o := by
    rw [tick_sim_eq_map]
    exact List.mem_map_of_mem _ (by simp [nodesPreFault])
  apply hall _ hmem
  constructor
  · rw [tickNode_name]; rfl
  · rw [tickNode_state]
    split_ifs <;> rfl

lemma tickNodeArchive_eq (o : ArchiveOracle) (n : Node) :
    tickNodeArchive o n =
      if o.recoverRand < p_recover
      then recoverNode (if o.faultRand < p_fault
            then injectFault o.victim o.faultCode (markBus o.sample (clearBus n))
            else markBus o.sample (clearBus n))
      else (if o.faultRand < p_fault
            then injectFault o.victim o.faultCode (markBus o.sample (clearBus n))
            else markBus o.sample (clearBus n)) := by
  unfold tickNodeArchive
  split_ifs <;> rfl

lemma tick_sim_archive_eq_map (nodes : List Node) (L : Int) (o : ArchiveOracle) :
    tick_sim_archive nodes L o = nodes.map (tickNodeArchive o) := by
  unfold tick_sim_archive tickNodeArchive
  by_cases h1 : o.faultRand < p_fault <;> by_cases h2 : o.recoverRand < p_recover <;>
    simp [h1, h2, List.map_map, Function.comp]

lemma recoverNode_state_ne (n : Node) : (recoverNode n).state ≠ "FAULT" := by
  unfold recoverNode
  split_ifs with h
  · simp
  · exact h

lemma recoverNode_of_fault {n : Node} (h : n.state = "FAULT") :
    (recoverNode n).state = "ACTIVE" ∧ (recoverNode n).fault_code = "" := by
  unfold recoverNode
  rw [if_pos h]
  exact ⟨rfl, rfl⟩

lemma preRecover_state_of_fault (o : ArchiveOracle) (n : Node) (hf : n.state = "FAULT") :
    (if o.faultRand < p_fault
     then injectFault o.victim o.faultCode (markBus o.sample (clearBus n))
     else markBus o.sample (clearBus n)).state = "FAULT" := by
  split_ifs with hfi
  · rw [injectFault_state]
    split_ifs with hv
    · rfl
    · rw [markBus_state, clearBus_state]; exact hf
  · rw [markBus_state, clearBus_state]; exact hf

/-- C3 (amended): the 0.08 auto-recovery exists only in the archived
variant (`archive/app.py`).  There, whenever the independent recovery
trial fires, every previously faulted node ends the tick in ACTIVE with
its fault code cleared and no node at all is left in FAULT; the tick of
`simulation.py` has no such trial (see the counterexample). -/
theorem C3_amended_archive_recovery (nodes : List Node) (L : Int) (o : ArchiveOracle)
    (hrec : o.recoverRand < p_recover) :
    (∀ m ∈ tick_sim_archive nodes L o, m.state ≠ "FAULT")
    ∧ List.Forall₂ (fun a b => a.state = "FAULT" → b.state = "ACTIVE" ∧ b.fault_code = "")
        nodes (tick_sim_archive nodes L o) := by
  constructor
  · intro m hm
    rw [tick_sim_archive_eq_map] at hm
    obtain ⟨n, hn, rfl⟩ := List.mem_map.mp hm
    rw [tickNodeArchive_eq, if_pos hrec]
    exact recoverNode_state_ne _
  · rw [tick_sim_archive_eq_map, List.forall₂_map_right_iff, List.forall₂_same]
    intro n hn hf
    rw [tickNodeArchive_eq, if_pos hrec]
    exact recoverNode_of_fault (preRecover_state_of_fault o n hf)

/-- Witness for the amended C3 theorem at a concrete faulted topology. -/
theorem C3_amended_archive_recovery_witness :
    recOracle.recoverRand < p_recover
    ∧ ((∀ m ∈ tick_sim_archive [faultyNode] 1 recOracle, m.state ≠ "FAULT")
      ∧ List.Forall₂ (fun a b => a.state = "FAULT" → b.state = "ACTIVE" ∧ b.fault_code = "")
          [faultyNode] (tick_sim_archive [faultyNode] 1 recOracle)) :=
  ⟨by decide, C3_amended_archive_recovery [faultyNode] 1 recOracle (by decide)⟩

lemma victim_kind {nodes : List Node} {o : TickOracle} {n : Node}
    (hnn : (nodes.map Node.name).Nodup) (hn : n ∈ nodes)
    (hvic : o.victim ∈ (tinyMods nodes).map Node.name) (hvn : n.name = o.victim) :
    n.kind = "tinyMod" := by
  obtain ⟨p, hp, hpn⟩ := List.mem_map.mp hvic
  have hpnodes : p ∈ nodes := List.mem_of_mem_filter hp
  have hpe : p = n := List.inj_on_of_nodup_map hnn hpnodes hn (by rw [hpn, hvn])
  have hk := (List.mem_filter.mp hp).2
  rw [← hpe]
  exact of_decide_eq_true hk

/-- C7: the injection branch runs exactly when the uniform draw falls
below `p_fault`; when it fires it faults precisely the chosen `tinyMod`
victim, giving it one of the three fixed fault codes; when it does not
fire, no state or fault code changes; a node that newly shows FAULT is
of `tinyMod` kind; any changed fault code comes from the three-element
pool; and injection may hit an already-FAULT module, re-rolling its
code. -/
theorem C7_fault_injection (nodes : List Node) (L : Int) (o : TickOracle)
    (hnn : (nodes.map Node.name).Nodup)
    (hv : ValidOracle nodes L o) :
    (List.Forall₂ (fun a b =>
        (o.faultRand < p_fault → a.name = o.victim →
            b.state = "FAULT" ∧ b.fault_code = o.faultCode ∧ a.kind = "tinyMod")
      ∧ (¬ o.faultRand < p_fault → b.state = a.state ∧ b.fault_code = a.fault_code)
      ∧ (b.state = "FAULT" → a.state = "FAULT" ∨ a.kind = "tinyMod")
      ∧ (b.fault_code ≠ a.fault_code → b.fault_code ∈ FAULT_CODES))
      nodes (tick_sim nodes L o))
    ∧ (o.faultRand < p_fault → o.victim ∈ (tinyMods nodes).map Node.name)
    ∧ FAULT_CODES.length = 3 ∧ FAULT_CODES.Nodup
    ∧ ((tick_sim [faultyNode] 1 reFaultOracle).map fun n => (n.state, n.fault_code))
        = [("FAULT", "E12_BUS_TIMEOUT")] := by
  refine ⟨?_, fun hf => (hv.2.2.2.2.2 hf).1, by decide, by decide, by decide⟩
  rw [tick_sim_eq_map, List.forall₂_map_right_iff, List.forall₂_same]
  intro n hn
  refine ⟨?_, ?_, ?_, ?_⟩
  · intro hf hvn
    rw [tickNode_state, tickNode_fault_code, if_pos ⟨hf, hvn⟩, if_pos ⟨hf, hvn⟩]
    exact ⟨rfl, rfl, victim_kind hnn hn (hv.2.2.2.2.2 hf).1 hvn⟩
  · intro hnf
    have hc : ¬ (o.faultRand < p_fault ∧ n.name = o.victim) := fun hc => hnf hc.1
    rw [tickNode_state, tickNode_fault_code, if_neg hc, if_neg hc]
    exact ⟨rfl, rfl⟩
  · intro hbf
    rw [tickNode_state] at hbf
    by_cases hc : o.faultRand < p_fault ∧ n.name = o.victim
    · exact Or.inr (victim_kind hnn hn (hv.2.2.2.2.2 hc.1).1 hc.2)
    · exact Or.inl (by rwa [if_neg hc] at hbf)
  · intro hne
    rw [tickNode_fault_code] at hne ⊢
    by_cases hc : o.faultRand < p_fault ∧ n.name = o.victim
    · rw [if_pos hc]
      exact (hv.2.2.2.2.2 hc.1).2
    · rw [if_neg hc] at hne
      exact absurd rfl hne

/-- C8: the default topology is a fixed value — `reset` reproduces it
exactly — with 8 named nodes of the documented kinds, roles, states and
coordinates, pairwise distinct positive node IDs, and 8 edges whose
endpoints are all among the 8 node names. -/
theorem C8_default_topology :
    init_nodes.length = 8 ∧ init_edges.length = 8
    ∧ reset = init_nodes
    ∧ node_names = ["tinyCore", "tinyMod_UI", "tinyMod_A", "tinyMod_B", "tinyMod_C",
        "tinyMod_D", "tinyHub", "tinySwitch"]
    ∧ node_names.Nodup
    ∧ init_nodes.map Node.node_id = [1, 2, 3, 4, 5, 6, 20, 30]
    ∧ (init_nodes.map Node.node_id).Nodup
    ∧ (∀ n ∈ init_nodes, 0 < n.node_id)
    ∧ (∀ e ∈ init_edges, e.1 ∈ node_names ∧ e.2.1 ∈ node_names)
    ∧ (init_nodes.map fun n => (n.kind, n.role, n.state, n.x, n.y))
        = [("tinyCore", "ARBITRATOR", "ACTIVE", 200, 250),
           ("tinyMod", "UI/CONFIG", "ACTIVE", 400, 100),
           ("tinyMod", "DC motor", "CONFIGURED", 400, 200),
           ("tinyMod", "vision", "CONFIGURED", 400, 300),
           ("tinyMod", "6 DOF", "CONFIGURED", 400, 400),
           ("tinyMod", "ELEVATION", "CONFIGURED", 400, 500),
           ("tinyHub", "IO EXPAND", "ACTIVE", 600, 100),
           ("tinySwitch", "HMI INPUTS", "ACTIVE", 800, 200)] := by
  refine ⟨rfl, rfl, rfl, rfl, by decide, rfl, by decide, by decide, by decide, rfl⟩

/-- C9 counterexample: `assign_role` mutates the `role` field, so it is
not true that the core mutates only `bus_activity`, `state` and
`fault_code`. -/
theorem C9_counterexample :
    (applyOp [plainMod] (CoreOp.assignRole "tinyMod_A" "vision")).map Node.role
      ≠ [plainMod].map Node.role := by
  decide

lemma forall₂_mem_right {R : Node → Node → Prop} :
    ∀ {l1 l2 : List Node}, List.Forall₂ R l1 l2 → ∀ b ∈ l2, ∃ a ∈ l1, R a b := by
  intro l1 l2 h
  induction h with
  | nil => intro b hb; cases hb
  | cons h1 h2 ih =>
      intro b hb
      rcases List.mem_cons.mp hb with he | hb2
      · exact ⟨_, List.mem_cons_self _ _, he ▸ h1⟩
      · obtain ⟨a, ha, hr⟩ := ih b hb2
        exact ⟨a, List.mem_cons_of_mem _ ha, hr⟩

lemma heartbeat_of_frame {a b : Node} (hf : frameAgrees a b) (h : a.heartbeat = true) :
    b.heartbeat = true := by
  unfold frameAgrees at hf
  rw [hf.2.2.2.2.1]
  exact h

lemma heartbeat_applyOp (nodes : List Node) (op : CoreOp)
    (h : ∀ n ∈ nodes, n.heartbeat = true) : ∀ m ∈ applyOp nodes op, m.heartbeat = true := by
  intro m hm
  obtain ⟨a, ha, hr⟩ := forall₂_mem_right (frameAgrees_applyOp nodes op) m hm
  exact heartbeat_of_frame hr (h a ha)

/-- C9 (amended): every core operation leaves `name`, `kind`, `bus`,
`node_id`, `heartbeat`, `notes`, `x` and `y` of every node unchanged,
position by position — the core writes only `bus_activity`, `state`,
`fault_code` and, in `assign_role`, `role` — and `heartbeat` therefore
stays true on every node under any operation sequence from the default
topology. -/
theorem C9_amended_frame (nodes : List Node) (op : CoreOp) (ops : List CoreOp) :
    List.Forall₂ frameAgrees nodes (applyOp nodes op)
    ∧ ∀ m ∈ applyOps init_nodes ops, m.heartbeat = true := by
  refine ⟨frameAgrees_applyOp nodes op, ?_⟩
  have key : ∀ (l : List CoreOp) (ns : List Node),
      (∀ m ∈ ns, m.heartbeat = true) → ∀ m ∈ applyOps ns l, m.heartbeat = true := by
    intro l
    induction l with
    | nil => intro ns h m hm; exact h m hm
    | cons op1 rest ih =>
        intro ns h m hm
        exact ih (applyOp ns op1) (heartbeat_applyOp ns op1 h) m hm
  exact key ops init_nodes (by decide)

/-- Witness for C1 on the default topology. -/
theorem C1_tick_bus_activity_witness :
    ((init_nodes.map Node.name).Nodup ∧ mods init_nodes ≠ []
      ∧ ValidOracle init_nodes 3 sampleOracle)
    ∧ ((((tick_sim init_nodes 3 sampleOracle).countP fun n => n.bus_activity) : Int)
          = max 1 (min ((mods init_nodes).length : Int) 3)
      ∧ (∀ m ∈ tick_sim init_nodes 3 sampleOracle,
            m.bus_activity = true → m.kind ∈ eligible_kinds)
      ∧ (∀ m ∈ tick_sim init_nodes 3 sampleOracle,
            m.name ∉ sampleOracle.sample → m.bus_activity = false)) :=
  ⟨⟨by decide, by decide, by decide⟩,
    C1_tick_bus_activity init_nodes 3 sampleOracle (by decide) (by decide) (by decide)⟩

/-- Witness for the amended C2 theorem: clearing the fault of the
faulted module keeps the invariant. -/
theorem C2_amended_fault_invariant_witness :
    (ValidOp [faultyNode] (CoreOp.ackFault "tinyMod_A")
      ∧ SafeFor [faultyNode] (CoreOp.ackFault "tinyMod_A")
      ∧ ∀ n ∈ [faultyNode], faultInv n)
    ∧ ∀ m ∈ applyOp [faultyNode] (CoreOp.ackFault "tinyMod_A"), faultInv m :=
  ⟨⟨by decide, by decide, by decide⟩,
    C2_amended_fault_invariant [faultyNode] (CoreOp.ackFault "tinyMod_A")
      (by decide) (by decide) (by decide)⟩

/-- Witness for C7 on the default topology with the injection firing. -/
theorem C7_fault_injection_witness :
    ((init_nodes.map Node.name).Nodup ∧ ValidOracle init_nodes 0 injectOracle)
    ∧ ((List.Forall₂ (fun a b =>
          (injectOracle.faultRand < p_fault → a.name = injectOracle.victim →
              b.state = "FAULT" ∧ b.fault_code = injectOracle.faultCode ∧ a.kind = "tinyMod")
        ∧ (¬ injectOracle.faultRand < p_fault → b.state = a.state ∧ b.fault_code = a.fault_code)
        ∧ (b.state = "FAULT" → a.state = "FAULT" ∨ a.kind = "tinyMod")
        ∧ (b.fault_code ≠ a.fault_code → b.fault_code ∈ FAULT_CODES))
        init_nodes (tick_sim init_nodes 0 injectOracle))
      ∧ (injectOracle.faultRand < p_fault →
            injectOracle.victim ∈ (tinyMods init_nodes).map Node.name)
      ∧ FAULT_CODES.length = 3 ∧ FAULT_CODES.Nodup
      ∧ ((tick_sim [faultyNode] 1 reFaultOracle).map fun n => (n.state, n.fault_code))
          = [("FAULT", "E12_BUS_TIMEOUT")]) :=
  ⟨⟨by decide, by decide⟩,
    C7_fault_injection init_nodes 0 injectOracle (by decide) (by decide)⟩

end TinyTrainer
